import Mathlib

/-!
Verification of the SPDK error-injection virtual block device
(`module/bdev/error/vbdev_error.c`).

The definitions below are a shallow embedding of that file: each C function
is translated into a pure Lean function over an explicit state.  Machine
integers become `Nat` (every decrement in the source is guarded by a
non-zero test, so no wraparound can occur on the modelled paths), the
outcome of the external part-submission layer
(`spdk_bdev_part_submit_request_ext`) is passed in as an explicit `Int`
return code, and the outcome of the external part construction
(`_vbdev_error_create`'s calls into the part framework) likewise.
-/

namespace VbdevError

/-- Modelled from the spec: numeric values of `enum spdk_bdev_io_type` from
the SPDK public header (`spdk/bdev.h`), which is not part of `src/`.  The
spec's FaultTable is "indexed by I/O kind (read, write, unmap, flush —
reset is handled structurally, not via the table)". -/
def SPDK_BDEV_IO_TYPE_READ : Nat := 1

def SPDK_BDEV_IO_TYPE_WRITE : Nat := 2

def SPDK_BDEV_IO_TYPE_UNMAP : Nat := 3

def SPDK_BDEV_IO_TYPE_FLUSH : Nat := 4

def SPDK_BDEV_IO_TYPE_RESET : Nat := 5

/-- Modelled from the spec: numeric values of `enum vbdev_error_type` from
`vbdev_error.h`, which is not part of `src/`.  Only distinctness and
non-zeroness of these values matter to the dispatcher. -/
def VBDEV_IO_FAILURE : Nat := 1

def VBDEV_IO_PENDING : Nat := 2

def VBDEV_IO_CORRUPT_DATA : Nat := 3

def VBDEV_IO_NOMEM : Nat := 4

/-- Standard errno values used by the module (`errno.h`, not in `src/`);
the C code returns their negations. -/
def EINVAL : Int := 22

def EEXIST : Int := 17

def ENOENT : Int := 2

def ENODEV : Int := 19

/-- I/O kinds a request can carry in the claims' scope.  `vbdev_error.c`
matches on the numeric `bdev_io->type`; the dispatcher claims only concern
read/write/unmap/flush plus the structurally handled reset. -/
inductive IoType where
  | read
  | write
  | unmap
  | flush
  | reset
deriving DecidableEq, Repr

/-- The numeric `spdk_bdev_io_type` value of an `IoType`. -/
def IoType.toNat : IoType → Nat
  | .read => SPDK_BDEV_IO_TYPE_READ
  | .write => SPDK_BDEV_IO_TYPE_WRITE
  | .unmap => SPDK_BDEV_IO_TYPE_UNMAP
  | .flush => SPDK_BDEV_IO_TYPE_FLUSH
  | .reset => SPDK_BDEV_IO_TYPE_RESET

/-- Completion statuses used by `vbdev_error.c`
(`SPDK_BDEV_IO_STATUS_SUCCESS` / `FAILED` / `NOMEM`, from the SPDK header
not in `src/`; modelled abstractly). -/
inductive Status where
  | success
  | failed
  | nomem
deriving DecidableEq, Repr

/-- `struct vbdev_error_info` (vbdev_error.c lines 31-37). -/
structure vbdev_error_info where
  error_type : Nat
  error_num : Nat
  error_qd : Nat
  corrupt_offset : Nat
  corrupt_value : Nat
deriving DecidableEq, Repr

/-- A request, modelling the parts of `struct spdk_bdev_io` the module
reads: its type and its scatter-gather buffer list.  Each iovec is the
list of its bytes (so `iov_len` is the list length). -/
structure spdk_bdev_io where
  ioType : IoType
  iovs : List (List Nat)
deriving DecidableEq, Repr

/-- `struct error_disk` (lines 40-44): the fault table and the pending
queue.  The C array `error_vector[SPDK_BDEV_IO_TYPE_RESET]` is modelled as
a total function so that the unchecked indexing of
`vbdev_error_inject_error` is expressible; `errorVectorLen` records the
declared array length. -/
structure error_disk where
  error_vector : Nat → vbdev_error_info
  pending_ios : List spdk_bdev_io

/-- The declared length of `error_disk.error_vector` (line 42):
`SPDK_BDEV_IO_TYPE_RESET` entries, so only indices strictly below it are
in bounds. -/
def errorVectorLen : Nat := SPDK_BDEV_IO_TYPE_RESET

/-- `struct error_channel` (lines 46-49). -/
structure error_channel where
  io_inflight : Nat
deriving DecidableEq, Repr

/-- `struct vbdev_error_inject_opts` (from `vbdev_error.h`, mirrored by the
fields read at lines 89-139). -/
structure vbdev_error_inject_opts where
  io_type : Nat
  error_type : Nat
  error_num : Nat
  error_qd : Nat
  corrupt_offset : Nat
  corrupt_value : Nat
deriving DecidableEq, Repr

/-! ### Corruption engine (lines 178-199) -/

/-- `vbdev_error_corrupt_io_data` (lines 178-199): walk the iovec list in
order; the first buffer whose length exceeds the remaining offset gets the
byte at that local offset XORed with `corrupt_value`; earlier buffers have
their full length subtracted from the running offset.  An empty list (the
C `iovs == NULL` guard) is a no-op, as is an offset past the cumulative
length. -/
def vbdev_error_corrupt_io_data : List (List Nat) → Nat → Nat → List (List Nat)
  | [], _, _ => []
  | buf :: rest, corrupt_offset, corrupt_value =>
    if corrupt_offset < buf.length then
      buf.set corrupt_offset (buf.getD corrupt_offset 0 ^^^ corrupt_value) :: rest
    else
      buf :: vbdev_error_corrupt_io_data rest (corrupt_offset - buf.length) corrupt_value

/-! ### Fault configuration (`vbdev_error_inject_error`, lines 79-145)

The device lookup by name (lines 99-119, returning `-ENODEV` when the
device is absent) is outside the model: the function below acts on the
`error_disk` the C code has already found.  It returns the C return code
together with the (possibly updated) disk state. -/

/-- `vbdev_error_inject_error` (lines 89-139): validate the CorruptData
parameters, then either write every slot (`io_type = 0xffffffff`), clear
every slot's `error_num` (`io_type = 0`), or overwrite the single slot
`error_vector[opts.io_type]` with no bounds check. -/
def vbdev_error_inject_error (disk : error_disk) (opts : vbdev_error_inject_opts) :
    Int × error_disk :=
  if opts.error_type = VBDEV_IO_CORRUPT_DATA ∧ opts.corrupt_value = 0 then
    (-EINVAL, disk)
  else if opts.io_type = 0xffffffff then
    (0, { disk with error_vector := fun i =>
      if i < errorVectorLen then
        ⟨opts.error_type, opts.error_num, opts.error_qd,
          opts.corrupt_offset, opts.corrupt_value⟩
      else disk.error_vector i })
  else if opts.io_type = 0 then
    (0, { disk with error_vector := fun i =>
      if i < errorVectorLen then { disk.error_vector i with error_num := 0 }
      else disk.error_vector i })
  else
    (0, { disk with error_vector := fun i =>
      if i = opts.io_type then
        ⟨opts.error_type, opts.error_num, opts.error_qd,
          opts.corrupt_offset, opts.corrupt_value⟩
      else disk.error_vector i })

/-! ### Request dispatcher (lines 147-281) -/

/-- `vbdev_error_get_error_type` (lines 159-176): only read, write, unmap
and flush have a fault concept, and a zero `error_num` means no
injection. -/
def vbdev_error_get_error_type (disk : error_disk) (io_type : Nat) : Nat :=
  if io_type = SPDK_BDEV_IO_TYPE_READ ∨ io_type = SPDK_BDEV_IO_TYPE_WRITE ∨
      io_type = SPDK_BDEV_IO_TYPE_UNMAP ∨ io_type = SPDK_BDEV_IO_TYPE_FLUSH then
    if (disk.error_vector io_type).error_num ≠ 0 then
      (disk.error_vector io_type).error_type
    else 0
  else 0

/-- The effect of `error_disk->error_vector[t].error_num--`. -/
def decrementErrorNum (disk : error_disk) (t : Nat) : error_disk :=
  { disk with error_vector := fun j =>
      if j = t then
        { disk.error_vector t with error_num := (disk.error_vector t).error_num - 1 }
      else disk.error_vector j }

/-- The FIFO drain of `vbdev_error_reset`'s `TAILQ_FOREACH_SAFE` loop
(lines 152-155): each parked request is completed with Failed in list
order. -/
def drainPending : List spdk_bdev_io → List (spdk_bdev_io × Status)
  | [] => []
  | p :: rest => (p, Status.failed) :: drainPending rest

/-- `vbdev_error_reset` (lines 147-157): drain the pending queue, failing
each parked request in FIFO order, then complete the reset with Success.
Returns the new disk state and the completions it issued, in order. -/
def vbdev_error_reset (disk : error_disk) (bdev_io : spdk_bdev_io) :
    error_disk × List (spdk_bdev_io × Status) :=
  ({ disk with pending_ios := [] },
    drainPending disk.pending_ios ++ [(bdev_io, Status.success)])

/-- Observable outcome of one `vbdev_error_submit_request` call: the new
disk and channel state, the completions issued synchronously (in order),
and the request forwarded to the base device, if any. -/
structure SubmitResult where
  disk : error_disk
  ch : error_channel
  completions : List (spdk_bdev_io × Status)
  forwarded : Option spdk_bdev_io

/-- The forward path of `vbdev_error_submit_request` (lines 267-276,
`case 0` of the switch): submit to the base device; on a non-zero return
code complete the request as Failed (and do not forward it).  As in the
source, `ch->io_inflight++` sits after the `if (rc)` block and therefore
executes on both paths. -/
def forwardRequest (ch : error_channel) (disk : error_disk)
    (bdev_io : spdk_bdev_io) (submitRc : Int) : SubmitResult :=
  if submitRc ≠ 0 then
    { disk := disk, ch := ⟨ch.io_inflight + 1⟩,
      completions := [(bdev_io, Status.failed)], forwarded := none }
  else
    { disk := disk, ch := ⟨ch.io_inflight + 1⟩,
      completions := [], forwarded := some bdev_io }

/-- `vbdev_error_submit_request` (lines 226-281).  `submitRc` is the
return code of the external `spdk_bdev_part_submit_request_ext`.  The
`default: assert(false)` arm of the C switch (an `error_type` outside the
five known values) is `none`. -/
def vbdev_error_submit_request (ch : error_channel) (disk : error_disk)
    (bdev_io : spdk_bdev_io) (submitRc : Int) : Option SubmitResult :=
  if bdev_io.ioType = IoType.reset then
    some { disk := (vbdev_error_reset disk bdev_io).1, ch := ch,
           completions := (vbdev_error_reset disk bdev_io).2, forwarded := none }
  else
    let t := bdev_io.ioType.toNat
    let error_type :=
      if ch.io_inflight < (disk.error_vector t).error_qd then 0
      else vbdev_error_get_error_type disk t
    if error_type = VBDEV_IO_FAILURE then
      some { disk := decrementErrorNum disk t, ch := ch,
             completions := [(bdev_io, Status.failed)], forwarded := none }
    else if error_type = VBDEV_IO_NOMEM then
      some { disk := decrementErrorNum disk t, ch := ch,
             completions := [(bdev_io, Status.nomem)], forwarded := none }
    else if error_type = VBDEV_IO_PENDING then
      some { disk := { decrementErrorNum disk t with
               pending_ios := disk.pending_ios ++ [bdev_io] },
             ch := ch, completions := [], forwarded := none }
    else if error_type = VBDEV_IO_CORRUPT_DATA ∨ error_type = 0 then
      if error_type = VBDEV_IO_CORRUPT_DATA ∧ bdev_io.ioType = IoType.write then
        some (forwardRequest ch (decrementErrorNum disk t)
          { bdev_io with iovs := (vbdev_error_corrupt_io_data bdev_io.iovs
              (disk.error_vector t).corrupt_offset (disk.error_vector t).corrupt_value) }
          submitRc)
      else
        some (forwardRequest ch disk bdev_io submitRc)
    else
      none

/-- Observable outcome of one `vbdev_error_complete_request` call. -/
structure CompleteResult where
  disk : error_disk
  ch : error_channel
  bdev_io : spdk_bdev_io
  status : Status

/-- `vbdev_error_complete_request` (lines 201-224): decrement the
channel's in-flight count; a successful Read whose fault slot is an armed
CorruptData spends one occurrence and corrupts the just-filled buffers;
then complete with the base device's status. -/
def vbdev_error_complete_request (disk : error_disk) (ch : error_channel)
    (bdev_io : spdk_bdev_io) (success : Bool) : CompleteResult :=
  let status := if success then Status.success else Status.failed
  let ch' : error_channel := ⟨ch.io_inflight - 1⟩
  if success = true ∧ bdev_io.ioType = IoType.read ∧
      vbdev_error_get_error_type disk bdev_io.ioType.toNat = VBDEV_IO_CORRUPT_DATA then
    { disk := decrementErrorNum disk bdev_io.ioType.toNat,
      ch := ch',
      bdev_io := { bdev_io with iovs := (vbdev_error_corrupt_io_data bdev_io.iovs
        (disk.error_vector bdev_io.ioType.toNat).corrupt_offset
        (disk.error_vector bdev_io.ioType.toNat).corrupt_value) },
      status := status }
  else
    { disk := disk, ch := ch', bdev_io := bdev_io, status := status }

/-- Submit a sequence of requests back to back on one channel, all with a
succeeding base-device submission (`submitRc = 0`), threading the state;
stops if the dispatcher hits its `assert(false)` arm. -/
def submitSeq : error_disk → error_channel → List spdk_bdev_io → List SubmitResult
  | _, _, [] => []
  | disk, ch, bdev_io :: rest =>
    match vbdev_error_submit_request ch disk bdev_io 0 with
    | none => []
    | some r => r :: submitSeq r.disk r.ch rest

/-- What it means for a submit outcome to be "affected by the configured
fault" of kind `k` (with corruption parameters `off`, `v`), in the words
of the claims: failed, completed out-of-resources, queued, or
corrupted-then-forwarded. -/
def affectedAs (k : Nat) (bdev_io : spdk_bdev_io) (off v : Nat) (r : SubmitResult) : Prop :=
  if k = VBDEV_IO_FAILURE then
    r.completions = [(bdev_io, Status.failed)] ∧ r.forwarded = none
  else if k = VBDEV_IO_NOMEM then
    r.completions = [(bdev_io, Status.nomem)] ∧ r.forwarded = none
  else if k = VBDEV_IO_PENDING then
    r.completions = [] ∧ r.forwarded = none ∧ bdev_io ∈ r.disk.pending_ios
  else
    r.completions = [] ∧
    r.forwarded = some { bdev_io with
      iovs := vbdev_error_corrupt_io_data bdev_io.iovs off v }

/-! ### Configuration registry and lifecycle (lines 22-29, 394-416,
441-500, 514-530) -/

/-- `struct spdk_vbdev_error_config` (lines 22-26); the UUID is abstracted
to a `Nat` token. -/
structure spdk_vbdev_error_config where
  base_bdev : String
  uuid : Nat
deriving DecidableEq, Repr

/-- `vbdev_error_config_find_by_base_name` (lines 441-453) over the
`g_error_config` list. -/
def vbdev_error_config_find_by_base_name (cfgs : List spdk_vbdev_error_config)
    (base_bdev_name : String) : Option spdk_vbdev_error_config :=
  cfgs.find? (fun cfg => cfg.base_bdev == base_bdev_name)

/-- `vbdev_error_config_add` (lines 455-484); allocation failures are not
modelled.  Returns the C return code and the new registry. -/
def vbdev_error_config_add (cfgs : List spdk_vbdev_error_config)
    (base_bdev_name : String) (uuid : Nat) : Int × List spdk_vbdev_error_config :=
  match vbdev_error_config_find_by_base_name cfgs base_bdev_name with
  | some _ => (-EEXIST, cfgs)
  | none => (0, cfgs ++ [⟨base_bdev_name, uuid⟩])

/-- `vbdev_error_config_remove` (lines 486-500): remove the first entry
with the given base name, `-ENOENT` if there is none. -/
def vbdev_error_config_remove (cfgs : List spdk_vbdev_error_config)
    (base_bdev_name : String) : Int × List spdk_vbdev_error_config :=
  match vbdev_error_config_find_by_base_name cfgs base_bdev_name with
  | none => (-ENOENT, cfgs)
  | some _ => (0, cfgs.eraseP (fun cfg => cfg.base_bdev == base_bdev_name))

/-- `vbdev_error_create` (lines 394-416).  `constructRc` is the return
code of the external `_vbdev_error_create` (the part-framework
construction): `-ENODEV` means the base device is absent. -/
def vbdev_error_create (cfgs : List spdk_vbdev_error_config)
    (base_bdev_name : String) (uuid : Nat) (constructRc : Int) :
    Int × List spdk_vbdev_error_config :=
  let add := vbdev_error_config_add cfgs base_bdev_name uuid
  if add.1 ≠ 0 then add
  else if constructRc = -ENODEV then (0, add.2)
  else if constructRc ≠ 0 then (constructRc, (vbdev_error_config_remove add.2 base_bdev_name).2)
  else (0, add.2)

/-- `vbdev_error_examine` (lines 514-530): on discovery of a base device,
if a ConfigEntry exists for its name, `_vbdev_error_create` is invoked
with the stored UUID.  Returns `some uuid` exactly when construction is
triggered. -/
def vbdev_error_examine (cfgs : List spdk_vbdev_error_config)
    (bdev_name : String) : Option Nat :=
  (vbdev_error_config_find_by_base_name cfgs bdev_name).map (fun cfg => cfg.uuid)

/-! ### Concrete sample states for witnesses and counterexamples -/

/-- An all-zero fault slot (no injection configured). -/
def zeroInfo : vbdev_error_info := ⟨0, 0, 0, 0, 0⟩

/-- Default request used by `List.getD` in trace statements. -/
def ioDefault : spdk_bdev_io := ⟨IoType.read, []⟩

/-- Default submit result used by `List.getD` in trace statements. -/
def resDefault : SubmitResult := ⟨⟨fun _ => zeroInfo, []⟩, ⟨0⟩, [], none⟩

/-- A disk with a CorruptData fault armed (budget 1, threshold 0) on the
Flush slot. -/
def flushCorruptDisk : error_disk :=
  ⟨fun i => if i = SPDK_BDEV_IO_TYPE_FLUSH then ⟨VBDEV_IO_CORRUPT_DATA, 1, 0, 0, 255⟩
    else zeroInfo, []⟩

/-- A one-buffer flush request. -/
def flushIo : spdk_bdev_io := ⟨IoType.flush, [[7]]⟩

/-- A disk with a Fail fault armed (budget 2, threshold 0) on the Read
slot. -/
def readFailDisk : error_disk :=
  ⟨fun i => if i = SPDK_BDEV_IO_TYPE_READ then ⟨VBDEV_IO_FAILURE, 2, 0, 0, 0⟩
    else zeroInfo, []⟩

/-- A buffer-less read request. -/
def readIo : spdk_bdev_io := ⟨IoType.read, []⟩

/-- A disk with a Fail fault armed on the Read slot behind queue-depth
threshold 5 (budget 3). -/
def readFailQdDisk : error_disk :=
  ⟨fun i => if i = SPDK_BDEV_IO_TYPE_READ then ⟨VBDEV_IO_FAILURE, 3, 5, 0, 0⟩
    else zeroInfo, []⟩

/-- A disk with three parked requests and a Fail fault armed on the Write
slot (to observe that reset does not consult the table). -/
def pendingDisk : error_disk :=
  ⟨fun i => if i = SPDK_BDEV_IO_TYPE_WRITE then ⟨VBDEV_IO_FAILURE, 2, 0, 0, 0⟩
    else zeroInfo,
   [⟨IoType.write, [[1]]⟩, ⟨IoType.write, [[2]]⟩, ⟨IoType.write, [[3]]⟩]⟩

/-- A disk with a Fail fault armed on every slot (budget 5), used to watch
`clear all` zero the budgets and nothing else. -/
def allFailDisk : error_disk :=
  ⟨fun _ => ⟨VBDEV_IO_FAILURE, 5, 2, 30, 9⟩, []⟩

/-- An inject-opts record carrying the clear-all sentinel. -/
def clearOpts : vbdev_error_inject_opts := ⟨0, 0, 0, 0, 0, 0⟩

/-- An inject-opts record with CorruptData and a zero XOR byte. -/
def badCorruptOpts : vbdev_error_inject_opts := ⟨SPDK_BDEV_IO_TYPE_WRITE, VBDEV_IO_CORRUPT_DATA, 4, 0, 10, 0⟩

/-- An inject-opts record whose `io_type` equals `SPDK_BDEV_IO_TYPE_RESET`
(= the length of `error_vector`), i.e. the first out-of-bounds index. -/
def oobOpts : vbdev_error_inject_opts := ⟨SPDK_BDEV_IO_TYPE_RESET, VBDEV_IO_FAILURE, 1, 0, 0, 0⟩

/-- A disk with an armed CorruptData fault on the Read slot behind
queue-depth threshold 10 (budget 2), corruption at offset 1 with XOR byte
255. -/
def readCorruptQdDisk : error_disk :=
  ⟨fun i => if i = SPDK_BDEV_IO_TYPE_READ then ⟨VBDEV_IO_CORRUPT_DATA, 2, 10, 1, 255⟩
    else zeroInfo, []⟩

/-- A read request with one three-byte buffer. -/
def readIo3 : spdk_bdev_io := ⟨IoType.read, [[10, 20, 30]]⟩

end VbdevError

namespace VbdevError

/-! ### Lemmas about the corruption engine -/

lemma set_append_left {α : Type} (l₁ l₂ : List α) (i : Nat) (a : α) (h : i < l₁.length) :
    (l₁ ++ l₂).set i a = l₁.set i a ++ l₂ := by
  induction l₁ generalizing i with
  | nil => simp at h
  | cons x xs ih =>
    cases i with
    | zero => simp
    | succ j =>
      show x :: (xs ++ l₂).set j a = x :: xs.set j a ++ l₂
      rw [ih j (by simpa using h)]
      rfl

lemma set_append_right {α : Type} (l₁ l₂ : List α) (i : Nat) (a : α) (h : l₁.length ≤ i) :
    (l₁ ++ l₂).set i a = l₁ ++ l₂.set (i - l₁.length) a := by
  induction l₁ generalizing i with
  | nil => simp
  | cons x xs ih =>
    cases i with
    | zero => simp at h
    | succ j =>
      show x :: (xs ++ l₂).set j a = x :: (xs ++ l₂.set (j + 1 - (xs.length + 1)) a)
      rw [ih j (by simpa using h), Nat.succ_sub_succ]

lemma corrupt_io_data_map_length (bufs : List (List Nat)) (off v : Nat) :
    (vbdev_error_corrupt_io_data bufs off v).map List.length = bufs.map List.length := by
  induction bufs generalizing off with
  | nil => rfl
  | cons buf rest ih =>
    unfold vbdev_error_corrupt_io_data
    split
    · simp
    · simp [ih]

lemma corrupt_io_data_flatten (bufs : List (List Nat)) (off v : Nat) :
    (vbdev_error_corrupt_io_data bufs off v).flatten =
      (bufs.flatten).set off ((bufs.flatten).getD off 0 ^^^ v) := by
  induction bufs generalizing off with
  | nil => rfl
  | cons buf rest ih =>
    unfold vbdev_error_corrupt_io_data
    split
    · rename_i h
      rw [List.flatten_cons, List.flatten_cons,
        set_append_left _ _ _ _ h, List.getD_append _ _ _ _ h]
    · rename_i h
      have h' : buf.length ≤ off := Nat.le_of_not_lt h
      rw [List.flatten_cons, List.flatten_cons, ih,
        set_append_right _ _ _ _ h', List.getD_append_right _ _ _ _ h']

lemma corrupt_io_data_of_le (bufs : List (List Nat)) (off v : Nat)
    (h : bufs.flatten.length ≤ off) :
    vbdev_error_corrupt_io_data bufs off v = bufs := by
  induction bufs generalizing off with
  | nil => rfl
  | cons buf rest ih =>
    rw [List.flatten_cons, List.length_append] at h
    unfold vbdev_error_corrupt_io_data
    split
    · omega
    · rw [ih _ (by omega)]

end VbdevError

namespace VbdevError

/-- Claim C3: the Corruption Engine walks the buffer list in order
subtracting each earlier buffer's full length from the running offset, and
XORs exactly one byte — the byte at the local offset inside the first
buffer whose length exceeds the remaining offset — with the configured
value, leaving every other byte of every buffer unchanged.  Stated via the
flattened buffer list: buffer lengths are preserved and the concatenation
of the result is the concatenation of the input with exactly the byte at
the global offset XORed.  In particular for buffers of lengths [100, 50]
and offset 120 the byte at local offset 20 of the second buffer is
flipped, and if the cumulative length is ≤ the offset nothing changes. -/
theorem corrupt_io_data_flips_exactly_one_byte :
    (∀ (bufs : List (List Nat)) (off v : Nat),
      (vbdev_error_corrupt_io_data bufs off v).map List.length = bufs.map List.length) ∧
    (∀ (bufs : List (List Nat)) (off v : Nat),
      (vbdev_error_corrupt_io_data bufs off v).flatten =
        (bufs.flatten).set off ((bufs.flatten).getD off 0 ^^^ v)) ∧
    (∀ (bufs : List (List Nat)) (off v : Nat),
      bufs.flatten.length ≤ off → vbdev_error_corrupt_io_data bufs off v = bufs) ∧
    (vbdev_error_corrupt_io_data [List.replicate 100 7, List.replicate 50 9] 120 255 =
      [List.replicate 100 7, (List.replicate 50 9).set 20 (9 ^^^ 255)]) := by
  refine ⟨corrupt_io_data_map_length, corrupt_io_data_flatten, corrupt_io_data_of_le, ?_⟩
  decide

end VbdevError

namespace VbdevError

/-! ### Lemmas about the dispatcher -/

lemma drainPending_eq_map (l : List spdk_bdev_io) :
    drainPending l = l.map (fun p => (p, Status.failed)) := by
  induction l with
  | nil => rfl
  | cons p rest ih => simp [drainPending, ih]

/-- With a zero occurrence budget on the request's slot the dispatcher
treats the request as no-injection: forwarded untouched, state
unchanged. -/
lemma budget_zero_forwards (disk : error_disk) (ch : error_channel)
    (bdev_io : spdk_bdev_io)
    (ht : bdev_io.ioType ≠ IoType.reset)
    (h0 : (disk.error_vector bdev_io.ioType.toNat).error_num = 0) :
    vbdev_error_submit_request ch disk bdev_io 0 =
      some { disk := disk, ch := ⟨ch.io_inflight + 1⟩,
             completions := [], forwarded := some bdev_io } := by
  have hget : vbdev_error_get_error_type disk bdev_io.ioType.toNat = 0 := by
    cases hh : bdev_io.ioType <;>
      simp_all [vbdev_error_get_error_type, IoType.toNat, SPDK_BDEV_IO_TYPE_READ,
        SPDK_BDEV_IO_TYPE_WRITE, SPDK_BDEV_IO_TYPE_UNMAP, SPDK_BDEV_IO_TYPE_FLUSH,
        SPDK_BDEV_IO_TYPE_RESET]
  unfold vbdev_error_submit_request forwardRequest
  simp [ht, hget, VBDEV_IO_FAILURE, VBDEV_IO_NOMEM, VBDEV_IO_PENDING,
    VBDEV_IO_CORRUPT_DATA]

end VbdevError

namespace VbdevError

/-- Claim C2: for every non-Reset request on a channel whose in-flight
count is strictly below the configured queue_depth_threshold for the
request's kind, the dispatcher treats the request as having no injection:
it is forwarded unmodified and the FaultSpec's remaining budget is not
decremented (the disk state is unchanged). -/
theorem below_threshold_forwards_unmodified
    (disk : error_disk) (ch : error_channel) (bdev_io : spdk_bdev_io)
    (ht : bdev_io.ioType ≠ IoType.reset)
    (hqd : ch.io_inflight < (disk.error_vector bdev_io.ioType.toNat).error_qd) :
    vbdev_error_submit_request ch disk bdev_io 0 =
      some { disk := disk, ch := ⟨ch.io_inflight + 1⟩,
             completions := [], forwarded := some bdev_io } := by
  unfold vbdev_error_submit_request forwardRequest
  simp [ht, hqd, VBDEV_IO_FAILURE, VBDEV_IO_NOMEM, VBDEV_IO_PENDING,
    VBDEV_IO_CORRUPT_DATA]

/-- Witness for C2: one in-flight request, threshold 5, armed Fail fault
with budget 3 on Read: the read is forwarded untouched and the disk is
unchanged. -/
theorem below_threshold_forwards_unmodified_witness :
    vbdev_error_submit_request ⟨1⟩ readFailQdDisk readIo 0 =
      some { disk := readFailQdDisk, ch := ⟨2⟩,
             completions := [], forwarded := some readIo } :=
  below_threshold_forwards_unmodified readFailQdDisk ⟨1⟩ readIo
    (by decide) (by decide)

/-- Claim C4: a Reset request completes every request parked in the
device's PendingQueue with Failed status in FIFO order, empties the queue,
then completes the Reset itself with Success; the fault table is not
consulted and no budget is consumed (the fault table is returned
unchanged). -/
theorem reset_drains_pending_fifo
    (disk : error_disk) (ch : error_channel) (bdev_io : spdk_bdev_io) (submitRc : Int)
    (h : bdev_io.ioType = IoType.reset) :
    vbdev_error_submit_request ch disk bdev_io submitRc =
      some { disk := { disk with pending_ios := [] }, ch := ch,
             completions := disk.pending_ios.map (fun p => (p, Status.failed)) ++
               [(bdev_io, Status.success)],
             forwarded := none } := by
  unfold vbdev_error_submit_request
  simp [h, vbdev_error_reset, drainPending_eq_map]

/-- Witness for C4: three parked writes and a Reset — all three complete
Failed in submission order, the queue is left empty, the Reset completes
Success, and the armed Write fault's budget is untouched. -/
theorem reset_drains_pending_fifo_witness :
    vbdev_error_submit_request ⟨0⟩ pendingDisk ⟨IoType.reset, []⟩ 0 =
      some { disk := { pendingDisk with pending_ios := [] }, ch := ⟨0⟩,
             completions :=
               pendingDisk.pending_ios.map (fun p => (p, Status.failed)) ++
                 [(⟨IoType.reset, []⟩, Status.success)],
             forwarded := none } :=
  reset_drains_pending_fifo pendingDisk ⟨0⟩ ⟨IoType.reset, []⟩ 0 rfl

/-- Claim C6: an inject call with fault kind CorruptData and a zero XOR
byte returns `-EINVAL` and performs no state mutation: the returned disk
state is exactly the input state. -/
theorem inject_corrupt_zero_byte_rejected
    (disk : error_disk) (opts : vbdev_error_inject_opts)
    (h1 : opts.error_type = VBDEV_IO_CORRUPT_DATA)
    (h2 : opts.corrupt_value = 0) :
    vbdev_error_inject_error disk opts = (-EINVAL, disk) := by
  unfold vbdev_error_inject_error
  rw [if_pos ⟨h1, h2⟩]

/-- Witness for C6: CorruptData with zero XOR byte against a device whose
every slot is armed — rejected with `-EINVAL`, nothing changed. -/
theorem inject_corrupt_zero_byte_rejected_witness :
    vbdev_error_inject_error allFailDisk badCorruptOpts = (-EINVAL, allFailDisk) :=
  inject_corrupt_zero_byte_rejected allFailDisk badCorruptOpts rfl rfl

/-- Claim C7 (evaluation at the failing input): when the base-device
submission layer rejects a forwarded request (`rc = -12`), the request is
completed as Failed — and yet `io_inflight` is incremented from 0 to 1,
because the `ch->io_inflight++` at line 275 sits outside the `if (rc)`
block.  This contradicts the claim (and the spec's "increment
`C.in_flight` on successful submission"): the counter no longer equals the
number of requests outstanding at the base device. -/
theorem submit_failure_still_increments_inflight :
    vbdev_error_submit_request ⟨0⟩ ⟨fun _ => zeroInfo, []⟩ ⟨IoType.write, [[1]]⟩ (-12) =
      some { disk := ⟨fun _ => zeroInfo, []⟩, ch := ⟨1⟩,
             completions := [(⟨IoType.write, [[1]]⟩, Status.failed)],
             forwarded := none } := by
  rfl

/-- Claim C10: corruption of a successful Read at completion time ignores
the queue_depth_threshold — for any channel state whatsoever (in
particular one whose in-flight count is below the threshold), a
successfully completing Read whose Read slot holds an armed CorruptData
fault has the budget decremented by one and its buffers corrupted with the
slot's offset and XOR byte. -/
theorem read_completion_corrupts_ignoring_threshold
    (disk : error_disk) (ch : error_channel) (bdev_io : spdk_bdev_io) (n : Nat)
    (hread : bdev_io.ioType = IoType.read)
    (hnum : (disk.error_vector SPDK_BDEV_IO_TYPE_READ).error_num = n + 1)
    (hkind : (disk.error_vector SPDK_BDEV_IO_TYPE_READ).error_type = VBDEV_IO_CORRUPT_DATA) :
    vbdev_error_complete_request disk ch bdev_io true =
      { disk := decrementErrorNum disk SPDK_BDEV_IO_TYPE_READ,
        ch := ⟨ch.io_inflight - 1⟩,
        bdev_io := { bdev_io with iovs := (vbdev_error_corrupt_io_data bdev_io.iovs
          (disk.error_vector SPDK_BDEV_IO_TYPE_READ).corrupt_offset
          (disk.error_vector SPDK_BDEV_IO_TYPE_READ).corrupt_value) },
        status := Status.success } ∧
    ((vbdev_error_complete_request disk ch bdev_io true).disk.error_vector
      SPDK_BDEV_IO_TYPE_READ).error_num = n := by
  have hget : vbdev_error_get_error_type disk bdev_io.ioType.toNat = VBDEV_IO_CORRUPT_DATA := by
    rw [hread]
    unfold vbdev_error_get_error_type
    simp [IoType.toNat, hkind, hnum]
  have hmain : vbdev_error_complete_request disk ch bdev_io true =
      { disk := decrementErrorNum disk SPDK_BDEV_IO_TYPE_READ,
        ch := ⟨ch.io_inflight - 1⟩,
        bdev_io := { bdev_io with iovs := (vbdev_error_corrupt_io_data bdev_io.iovs
          (disk.error_vector SPDK_BDEV_IO_TYPE_READ).corrupt_offset
          (disk.error_vector SPDK_BDEV_IO_TYPE_READ).corrupt_value) },
        status := Status.success } := by
    unfold vbdev_error_complete_request
    rw [if_pos ⟨rfl, hread, hget⟩, hread]
    simp [IoType.toNat]
  refine ⟨hmain, ?_⟩
  rw [hmain]
  simp [decrementErrorNum, hnum]

/-- Witness for C10: in-flight 0 is below the configured threshold 10, yet
the successful read completion still spends one of the two occurrences and
XORs byte 1 of the read buffer with 255. -/
theorem read_completion_corrupts_ignoring_threshold_witness :
    (vbdev_error_complete_request readCorruptQdDisk ⟨0⟩ readIo3 true =
      { disk := decrementErrorNum readCorruptQdDisk SPDK_BDEV_IO_TYPE_READ,
        ch := ⟨0⟩,
        bdev_io := { readIo3 with iovs := (vbdev_error_corrupt_io_data readIo3.iovs
          (readCorruptQdDisk.error_vector SPDK_BDEV_IO_TYPE_READ).corrupt_offset
          (readCorruptQdDisk.error_vector SPDK_BDEV_IO_TYPE_READ).corrupt_value) },
        status := Status.success } ∧
    ((vbdev_error_complete_request readCorruptQdDisk ⟨0⟩ readIo3 true).disk.error_vector
      SPDK_BDEV_IO_TYPE_READ).error_num = 1) :=
  read_completion_corrupts_ignoring_threshold readCorruptQdDisk ⟨0⟩ readIo3 1
    rfl (by decide) (by decide)

end VbdevError

namespace VbdevError

/-- Claim C5: an inject call with the clear-all sentinel (`io_type = 0`)
succeeds, sets `error_num` to 0 for every slot of the fault table and
changes no other field — `error_type`, `error_qd`, `corrupt_offset` and
`corrupt_value` keep their previous values — and afterwards every
non-Reset request is forwarded untouched rather than faulted. -/
theorem clear_all_zeroes_budgets_only
    (disk : error_disk) (opts : vbdev_error_inject_opts)
    (hclear : opts.io_type = 0)
    (hval : ¬(opts.error_type = VBDEV_IO_CORRUPT_DATA ∧ opts.corrupt_value = 0)) :
    (vbdev_error_inject_error disk opts).1 = 0 ∧
    (∀ i, i < errorVectorLen →
      (vbdev_error_inject_error disk opts).2.error_vector i =
        { disk.error_vector i with error_num := 0 }) ∧
    (vbdev_error_inject_error disk opts).2.pending_ios = disk.pending_ios ∧
    (∀ (ch : error_channel) (bdev_io : spdk_bdev_io),
      bdev_io.ioType ≠ IoType.reset →
      vbdev_error_submit_request ch (vbdev_error_inject_error disk opts).2 bdev_io 0 =
        some { disk := (vbdev_error_inject_error disk opts).2,
               ch := ⟨ch.io_inflight + 1⟩,
               completions := [], forwarded := some bdev_io }) := by
  have hres : vbdev_error_inject_error disk opts =
      (0, { disk with error_vector := fun i =>
        if i < errorVectorLen then { disk.error_vector i with error_num := 0 }
        else disk.error_vector i }) := by
    unfold vbdev_error_inject_error
    rw [if_neg hval, if_neg (by simp [hclear]), if_pos hclear]
  refine ⟨by rw [hres], ?_, by rw [hres], ?_⟩
  · intro i hi
    rw [hres]
    simp [hi]
  · intro ch bdev_io ht
    refine budget_zero_forwards _ ch bdev_io ht ?_
    rw [hres]
    cases hh : bdev_io.ioType <;>
      simp_all [IoType.toNat, errorVectorLen, SPDK_BDEV_IO_TYPE_READ,
        SPDK_BDEV_IO_TYPE_WRITE, SPDK_BDEV_IO_TYPE_UNMAP, SPDK_BDEV_IO_TYPE_FLUSH,
        SPDK_BDEV_IO_TYPE_RESET]

/-- Witness for C5: clearing a device whose every slot is
`⟨Fail, 5, 2, 30, 9⟩` succeeds, zeroes every budget while preserving kind,
threshold and corruption parameters, and the next read is forwarded
untouched. -/
theorem clear_all_zeroes_budgets_only_witness :
    (vbdev_error_inject_error allFailDisk clearOpts).1 = 0 ∧
    (∀ i, i < errorVectorLen →
      (vbdev_error_inject_error allFailDisk clearOpts).2.error_vector i =
        { allFailDisk.error_vector i with error_num := 0 }) ∧
    (vbdev_error_inject_error allFailDisk clearOpts).2.pending_ios =
      allFailDisk.pending_ios ∧
    (∀ (ch : error_channel) (bdev_io : spdk_bdev_io),
      bdev_io.ioType ≠ IoType.reset →
      vbdev_error_submit_request ch (vbdev_error_inject_error allFailDisk clearOpts).2
          bdev_io 0 =
        some { disk := (vbdev_error_inject_error allFailDisk clearOpts).2,
               ch := ⟨ch.io_inflight + 1⟩,
               completions := [], forwarded := some bdev_io }) :=
  clear_all_zeroes_budgets_only allFailDisk clearOpts rfl (by decide)

/-- Claim C9 (implicit): for a specific-kind inject call —
`io_type` different from the sentinels 0 and 0xffffffff —
`vbdev_error_inject_error` performs no validation of `io_type`: it
succeeds and stores the options into `error_vector[opts.io_type]`
unconditionally (leaving all other indices unchanged); the array declared
at line 42 has exactly `SPDK_BDEV_IO_TYPE_RESET` entries, so the store
only lands inside the array when `io_type < SPDK_BDEV_IO_TYPE_RESET`, and
any `io_type ≥ SPDK_BDEV_IO_TYPE_RESET` is a store past the end of
`error_vector`. -/
theorem inject_specific_kind_is_unchecked
    (disk : error_disk) (opts : vbdev_error_inject_opts)
    (hval : ¬(opts.error_type = VBDEV_IO_CORRUPT_DATA ∧ opts.corrupt_value = 0))
    (h0 : opts.io_type ≠ 0) (hall : opts.io_type ≠ 0xffffffff) :
    (vbdev_error_inject_error disk opts).1 = 0 ∧
    (vbdev_error_inject_error disk opts).2.error_vector opts.io_type =
      ⟨opts.error_type, opts.error_num, opts.error_qd,
        opts.corrupt_offset, opts.corrupt_value⟩ ∧
    (∀ j, j ≠ opts.io_type →
      (vbdev_error_inject_error disk opts).2.error_vector j = disk.error_vector j) ∧
    errorVectorLen = SPDK_BDEV_IO_TYPE_RESET ∧
    (SPDK_BDEV_IO_TYPE_RESET ≤ opts.io_type → ¬ opts.io_type < errorVectorLen) := by
  have hres : vbdev_error_inject_error disk opts =
      (0, { disk with error_vector := fun i =>
        if i = opts.io_type then
          ⟨opts.error_type, opts.error_num, opts.error_qd,
            opts.corrupt_offset, opts.corrupt_value⟩
        else disk.error_vector i }) := by
    unfold vbdev_error_inject_error
    rw [if_neg hval, if_neg hall, if_neg h0]
  refine ⟨by rw [hres], by rw [hres]; simp, ?_, rfl, ?_⟩
  · intro j hj
    rw [hres]
    simp [hj]
  · intro hge
    simpa [errorVectorLen] using Nat.not_lt.mpr hge

/-- Witness for C9: `io_type = SPDK_BDEV_IO_TYPE_RESET` (the first index
past the end of the five-entry array, and excluded from neither sentinel
check) — the call succeeds and stores the options at that out-of-bounds
index. -/
theorem inject_specific_kind_is_unchecked_witness :
    (vbdev_error_inject_error allFailDisk oobOpts).1 = 0 ∧
    (vbdev_error_inject_error allFailDisk oobOpts).2.error_vector oobOpts.io_type =
      ⟨oobOpts.error_type, oobOpts.error_num, oobOpts.error_qd,
        oobOpts.corrupt_offset, oobOpts.corrupt_value⟩ ∧
    (∀ j, j ≠ oobOpts.io_type →
      (vbdev_error_inject_error allFailDisk oobOpts).2.error_vector j =
        allFailDisk.error_vector j) ∧
    errorVectorLen = SPDK_BDEV_IO_TYPE_RESET ∧
    (SPDK_BDEV_IO_TYPE_RESET ≤ oobOpts.io_type → ¬ oobOpts.io_type < errorVectorLen) :=
  inject_specific_kind_is_unchecked allFailDisk oobOpts
    (by decide) (by decide) (by decide)

end VbdevError

namespace VbdevError
/-! ### Lemmas about the configuration registry -/

lemma config_find_append_singleton (cfgs : List spdk_vbdev_error_config)
    (name : String) (uuid : Nat)
    (h : vbdev_error_config_find_by_base_name cfgs name = none) :
    vbdev_error_config_find_by_base_name (cfgs ++ [⟨name, uuid⟩]) name =
      some ⟨name, uuid⟩ := by
  induction cfgs with
  | nil => simp [vbdev_error_config_find_by_base_name]
  | cons c cs ih =>
    unfold vbdev_error_config_find_by_base_name at h ⊢
    simp only [List.cons_append, List.find?_cons] at h ⊢
    cases hc : (c.base_bdev == name) with
    | true => simp [hc] at h
    | false =>
      simp only [hc]
      simp only [hc] at h
      exact ih h

lemma config_eraseP_append_singleton (cfgs : List spdk_vbdev_error_config)
    (name : String) (uuid : Nat)
    (h : vbdev_error_config_find_by_base_name cfgs name = none) :
    (cfgs ++ [(⟨name, uuid⟩ : spdk_vbdev_error_config)]).eraseP
      (fun cfg => cfg.base_bdev == name) = cfgs := by
  induction cfgs with
  | nil => simp [List.eraseP]
  | cons c cs ih =>
    unfold vbdev_error_config_find_by_base_name at h
    simp only [List.find?_cons] at h
    cases hc : (c.base_bdev == name) with
    | true => simp [hc] at h
    | false =>
      simp only [hc] at h
      simp only [List.cons_append, List.eraseP_cons, hc, cond_false]
      rw [ih h]

end VbdevError

namespace VbdevError

/-- Claim C8: `create` first registers a ConfigEntry, failing with
`-EEXIST` and changing nothing when one already exists for the base name;
when the base device is absent (construction returns `-ENODEV`) the call
still returns success and the entry persists, so a later discovery event
(`examine`) triggers construction with the stored identifier and no second
`create` call; any other construction failure removes the just-registered
entry and returns the failure, leaving the registry exactly as before. -/
theorem create_defers_and_rolls_back
    (cfgs : List spdk_vbdev_error_config) (name : String) (uuid : Nat) (rc : Int)
    (hfree : vbdev_error_config_find_by_base_name cfgs name = none) :
    (vbdev_error_create cfgs name uuid (-ENODEV) = (0, cfgs ++ [⟨name, uuid⟩]) ∧
      vbdev_error_examine (cfgs ++ [⟨name, uuid⟩]) name = some uuid) ∧
    (rc = 0 → vbdev_error_create cfgs name uuid rc = (0, cfgs ++ [⟨name, uuid⟩])) ∧
    (rc ≠ 0 → rc ≠ -ENODEV → vbdev_error_create cfgs name uuid rc = (rc, cfgs)) ∧
    (∀ cfgs' : List spdk_vbdev_error_config,
      vbdev_error_config_find_by_base_name cfgs' name ≠ none →
      ∀ rc' : Int, vbdev_error_create cfgs' name uuid rc' = (-EEXIST, cfgs')) := by
  have hadd : vbdev_error_config_add cfgs name uuid = (0, cfgs ++ [⟨name, uuid⟩]) := by
    unfold vbdev_error_config_add
    rw [hfree]
  refine ⟨⟨?_, ?_⟩, ?_, ?_, ?_⟩
  · simp [vbdev_error_create, hadd]
  · simp [vbdev_error_examine, config_find_append_singleton cfgs name uuid hfree]
  · intro h0
    simp [vbdev_error_create, hadd, h0, ENODEV]
  · intro hrc hrcnd
    simp [vbdev_error_create, hadd, hrc, hrcnd, vbdev_error_config_remove,
      config_find_append_singleton cfgs name uuid hfree,
      config_eraseP_append_singleton cfgs name uuid hfree]
  · intro cfgs' hsome rc'
    cases hfind : vbdev_error_config_find_by_base_name cfgs' name with
    | none => exact absurd hfind hsome
    | some c =>
      simp [vbdev_error_create, vbdev_error_config_add, hfind, EEXIST]

/-- Witness for C8: on an empty registry, creating for the absent base
device succeeds and leaves the entry behind, a discovery event for that
name triggers construction with the stored identifier, a construction
failure `-12` rolls the entry back, and a duplicate create fails with
`-EEXIST`. -/
theorem create_defers_and_rolls_back_witness :
    (vbdev_error_create [] "missing_base" 7 (-ENODEV) =
        (0, [] ++ [⟨"missing_base", 7⟩]) ∧
      vbdev_error_examine ([] ++ [⟨"missing_base", 7⟩]) "missing_base" = some 7) ∧
    ((-12 : Int) = 0 → vbdev_error_create [] "missing_base" 7 (-12) =
      (0, [] ++ [⟨"missing_base", 7⟩])) ∧
    ((-12 : Int) ≠ 0 → (-12 : Int) ≠ -ENODEV →
      vbdev_error_create [] "missing_base" 7 (-12) = (-12, [])) ∧
    (∀ cfgs' : List spdk_vbdev_error_config,
      vbdev_error_config_find_by_base_name cfgs' "missing_base" ≠ none →
      ∀ rc' : Int, vbdev_error_create cfgs' "missing_base" 7 rc' = (-EEXIST, cfgs')) :=
  create_defers_and_rolls_back [] "missing_base" 7 (-12) rfl

end VbdevError

namespace VbdevError

/-- One armed step: with threshold 0 and budget `m + 1` on the request's
slot, a matching request is affected according to the configured kind and
the slot drops to budget `m` with every other field preserved. -/
lemma submit_affected_step
    (disk : error_disk) (ch : error_channel) (bdev_io : spdk_bdev_io)
    (t : IoType) (k m off v : Nat)
    (hio : bdev_io.ioType = t) (ht : t ≠ IoType.reset)
    (hslot : disk.error_vector t.toNat = ⟨k, m + 1, 0, off, v⟩)
    (hk : k = VBDEV_IO_FAILURE ∨ k = VBDEV_IO_NOMEM ∨ k = VBDEV_IO_PENDING ∨
      (k = VBDEV_IO_CORRUPT_DATA ∧ t = IoType.write)) :
    ∃ r, vbdev_error_submit_request ch disk bdev_io 0 = some r ∧
      affectedAs k bdev_io off v r ∧
      r.disk.error_vector t.toNat = ⟨k, m, 0, off, v⟩ := by
  subst hio
  have hget : vbdev_error_get_error_type disk bdev_io.ioType.toNat = k := by
    cases hh : bdev_io.ioType <;>
      simp_all [vbdev_error_get_error_type, IoType.toNat, SPDK_BDEV_IO_TYPE_READ,
        SPDK_BDEV_IO_TYPE_WRITE, SPDK_BDEV_IO_TYPE_UNMAP, SPDK_BDEV_IO_TYPE_FLUSH,
        SPDK_BDEV_IO_TYPE_RESET]
  rcases hk with hk1 | hk1 | hk1 | ⟨hk1, hw⟩
  · subst hk1
    refine ⟨{ disk := decrementErrorNum disk bdev_io.ioType.toNat, ch := ch,
              completions := [(bdev_io, Status.failed)], forwarded := none }, ?_, ?_, ?_⟩
    · simp [vbdev_error_submit_request, ht, hslot, hget, VBDEV_IO_FAILURE]
    · simp [affectedAs, VBDEV_IO_FAILURE]
    · simp [decrementErrorNum, hslot]
  · subst hk1
    refine ⟨{ disk := decrementErrorNum disk bdev_io.ioType.toNat, ch := ch,
              completions := [(bdev_io, Status.nomem)], forwarded := none }, ?_, ?_, ?_⟩
    · simp [vbdev_error_submit_request, ht, hslot, hget, VBDEV_IO_FAILURE, VBDEV_IO_NOMEM]
    · simp [affectedAs, VBDEV_IO_FAILURE, VBDEV_IO_NOMEM]
    · simp [decrementErrorNum, hslot]
  · subst hk1
    refine ⟨{ disk := { decrementErrorNum disk bdev_io.ioType.toNat with
                pending_ios := disk.pending_ios ++ [bdev_io] },
              ch := ch, completions := [], forwarded := none }, ?_, ?_, ?_⟩
    · simp [vbdev_error_submit_request, ht, hslot, hget, VBDEV_IO_FAILURE,
        VBDEV_IO_NOMEM, VBDEV_IO_PENDING]
    · simp [affectedAs, VBDEV_IO_FAILURE, VBDEV_IO_NOMEM, VBDEV_IO_PENDING]
    · simp [decrementErrorNum, hslot]
  · subst hk1
    rw [hw] at ht hslot hget
    rw [hw]
    refine ⟨{ disk := decrementErrorNum disk IoType.write.toNat,
              ch := ⟨ch.io_inflight + 1⟩, completions := [],
              forwarded := some { bdev_io with
                iovs := vbdev_error_corrupt_io_data bdev_io.iovs off v } }, ?_, ?_, ?_⟩
    · simp [vbdev_error_submit_request, ht, hslot, hget, VBDEV_IO_FAILURE,
        VBDEV_IO_NOMEM, VBDEV_IO_PENDING, VBDEV_IO_CORRUPT_DATA, hw, forwardRequest]
    · simp [affectedAs, VBDEV_IO_FAILURE, VBDEV_IO_NOMEM, VBDEV_IO_PENDING,
        VBDEV_IO_CORRUPT_DATA]
    · simp [decrementErrorNum, hslot]

/-- Unfolding equation for `submitSeq` on a cons cell whose head submit
succeeds. -/
lemma submitSeq_cons (disk : error_disk) (ch : error_channel) (bdev_io : spdk_bdev_io)
    (rest : List spdk_bdev_io) (r : SubmitResult)
    (h : vbdev_error_submit_request ch disk bdev_io 0 = some r) :
    submitSeq disk ch (bdev_io :: rest) = r :: submitSeq r.disk r.ch rest := by
  simp only [submitSeq, h]

/-- The budgeted trace: starting from budget `n` with threshold 0, the
first `n` matching requests of a submitted sequence are each affected and
step the budget down by exactly one; every later request is forwarded
untouched with the budget sitting at zero. -/
lemma submitSeq_trace (t : IoType) (k off v : Nat)
    (ht : t ≠ IoType.reset)
    (hk : k = VBDEV_IO_FAILURE ∨ k = VBDEV_IO_NOMEM ∨ k = VBDEV_IO_PENDING ∨
      (k = VBDEV_IO_CORRUPT_DATA ∧ t = IoType.write)) :
    ∀ (ios : List spdk_bdev_io) (disk : error_disk) (ch : error_channel) (n : Nat),
      disk.error_vector t.toNat = ⟨k, n, 0, off, v⟩ →
      (∀ io ∈ ios, io.ioType = t) →
      (submitSeq disk ch ios).length = ios.length ∧
      (∀ i, i < ios.length →
        (i < n →
          affectedAs k (ios.getD i ioDefault) off v
            ((submitSeq disk ch ios).getD i resDefault) ∧
          ((submitSeq disk ch ios).getD i resDefault).disk.error_vector t.toNat =
            ⟨k, n - (i + 1), 0, off, v⟩) ∧
        (n ≤ i →
          ((submitSeq disk ch ios).getD i resDefault).forwarded =
            some (ios.getD i ioDefault) ∧
          ((submitSeq disk ch ios).getD i resDefault).completions = [] ∧
          ((submitSeq disk ch ios).getD i resDefault).disk.error_vector t.toNat =
            ⟨k, 0, 0, off, v⟩)) := by
  intro ios
  induction ios with
  | nil =>
    intro disk ch n hslot hall
    exact ⟨rfl, fun i hi => absurd hi (by simp)⟩
  | cons io rest ih =>
    intro disk ch n hslot hall
    have hio : io.ioType = t := hall io (List.mem_cons_self io rest)
    have hall' : ∀ x ∈ rest, x.ioType = t := fun x hx => hall x (List.mem_cons_of_mem _ hx)
    cases n with
    | zero =>
      have hstep := budget_zero_forwards disk ch io (by rw [hio]; exact ht)
        (by rw [hio, hslot])
      have hseq : submitSeq disk ch (io :: rest) =
          { disk := disk, ch := ⟨ch.io_inflight + 1⟩,
            completions := [], forwarded := some io } ::
            submitSeq disk ⟨ch.io_inflight + 1⟩ rest :=
        submitSeq_cons disk ch io rest _ hstep
      obtain ⟨ihlen, ihspec⟩ := ih disk ⟨ch.io_inflight + 1⟩ 0 hslot hall'
      constructor
      · rw [hseq]
        simp [ihlen]
      · intro i hi
        cases i with
        | zero =>
          refine ⟨fun h => absurd h (by omega), fun _ => ?_⟩
          rw [hseq]
          exact ⟨rfl, rfl, hslot⟩
        | succ j =>
          have hj : j < rest.length := by simpa using hi
          have hsp := ihspec j hj
          rw [hseq]
          simp only [List.getD_cons_succ]
          exact ⟨fun h => absurd h (by omega), fun _ => hsp.2 (Nat.zero_le j)⟩
    | succ m =>
      obtain ⟨r0, hstep, haff, hslot0⟩ :=
        submit_affected_step disk ch io t k m off v hio ht hslot hk
      have hseq : submitSeq disk ch (io :: rest) = r0 :: submitSeq r0.disk r0.ch rest :=
        submitSeq_cons disk ch io rest r0 hstep
      obtain ⟨ihlen, ihspec⟩ := ih r0.disk r0.ch m hslot0 hall'
      constructor
      · rw [hseq]
        simp [ihlen]
      · intro i hi
        cases i with
        | zero =>
          refine ⟨fun _ => ?_, fun h => absurd h (by omega)⟩
          rw [hseq]
          exact ⟨haff, by simpa using hslot0⟩
        | succ j =>
          have hj : j < rest.length := by simpa using hi
          have hsp := ihspec j hj
          rw [hseq]
          simp only [List.getD_cons_succ]
          constructor
          · intro hlt
            have h1 := hsp.1 (by omega)
            refine ⟨h1.1, h1.2.trans ?_⟩
            congr 1
            omega
          · intro hge
            exact hsp.2 (by omega)

end VbdevError

namespace VbdevError

/-- Claim C1 (amended): for an I/O kind `t` in {read, write, unmap, flush}
whose FaultSpec has occurrences `N > 0` and queue-depth threshold 0, and a
fault kind that the submission path actually applies — Fail, NoMemory or
Queue on any such kind, or CorruptData on Write — exactly the next `N`
matching requests on a channel are affected by the configured fault
(failed, completed out-of-resources, queued, or corrupted-then-forwarded),
each affected request decrements the remaining budget by exactly 1, and
request `N + 1` is forwarded to the base device untouched with the budget
sitting at 0. -/
theorem occurrences_budget_exact
    (t : IoType) (k N off v : Nat) (disk : error_disk) (ch : error_channel)
    (ios : List spdk_bdev_io)
    (ht : t ≠ IoType.reset)
    (hk : k = VBDEV_IO_FAILURE ∨ k = VBDEV_IO_NOMEM ∨ k = VBDEV_IO_PENDING ∨
      (k = VBDEV_IO_CORRUPT_DATA ∧ t = IoType.write))
    (hN : 0 < N)
    (hslot : disk.error_vector t.toNat = ⟨k, N, 0, off, v⟩)
    (hios : ∀ io ∈ ios, io.ioType = t)
    (hlen : ios.length = N + 1) :
    (submitSeq disk ch ios).length = N + 1 ∧
    (∀ i, i < N →
      affectedAs k (ios.getD i ioDefault) off v
        ((submitSeq disk ch ios).getD i resDefault) ∧
      (((submitSeq disk ch ios).getD i resDefault).disk.error_vector t.toNat).error_num =
        N - (i + 1)) ∧
    ((submitSeq disk ch ios).getD N resDefault).forwarded = some (ios.getD N ioDefault) ∧
    ((submitSeq disk ch ios).getD N resDefault).completions = [] ∧
    (((submitSeq disk ch ios).getD N resDefault).disk.error_vector t.toNat).error_num
      = 0 := by
  obtain ⟨hlen', hspec⟩ := submitSeq_trace t k off v ht hk ios disk ch N hslot hios
  refine ⟨by rw [hlen', hlen], ?_, ?_, ?_, ?_⟩
  · intro i hi
    have h := (hspec i (by omega)).1 hi
    exact ⟨h.1, by rw [h.2]⟩
  · exact ((hspec N (by omega)).2 (le_refl N)).1
  · exact ((hspec N (by omega)).2 (le_refl N)).2.1
  · rw [((hspec N (by omega)).2 (le_refl N)).2.2]

/-- Witness for C1: Fail fault with budget 2 and threshold 0 on Read —
submitting three reads fails the first two (budget 1, then 0) and forwards
the third untouched. -/
theorem occurrences_budget_exact_witness :
    (submitSeq readFailDisk ⟨0⟩ [readIo, readIo, readIo]).length = 2 + 1 ∧
    (∀ i, i < 2 →
      affectedAs VBDEV_IO_FAILURE ([readIo, readIo, readIo].getD i ioDefault) 0 0
        ((submitSeq readFailDisk ⟨0⟩ [readIo, readIo, readIo]).getD i resDefault) ∧
      (((submitSeq readFailDisk ⟨0⟩ [readIo, readIo, readIo]).getD i
          resDefault).disk.error_vector IoType.read.toNat).error_num = 2 - (i + 1)) ∧
    ((submitSeq readFailDisk ⟨0⟩ [readIo, readIo, readIo]).getD 2 resDefault).forwarded =
      some ([readIo, readIo, readIo].getD 2 ioDefault) ∧
    ((submitSeq readFailDisk ⟨0⟩ [readIo, readIo, readIo]).getD 2
      resDefault).completions = [] ∧
    (((submitSeq readFailDisk ⟨0⟩ [readIo, readIo, readIo]).getD 2
      resDefault).disk.error_vector IoType.read.toNat).error_num = 0 :=
  occurrences_budget_exact IoType.read VBDEV_IO_FAILURE 2 0 0 readFailDisk ⟨0⟩
    [readIo, readIo, readIo] (by decide) (Or.inl rfl) (by decide) (by decide)
    (by decide) rfl

/-- Counterexample to Claim C1 as stated: a CorruptData fault with
occurrences 1 and threshold 0 on the Flush kind.  The very next matching
flush request is NOT affected — it is forwarded to the base device
untouched, the budget stays at 1 rather than being decremented, and the
outcome is not any of the claim's "affected" shapes — because the
dispatcher's CorruptData arm only acts on Write requests at submission
(and on Read at successful completion); for Unmap and Flush it falls
through to the plain forward with no decrement. -/
theorem corrupt_on_flush_forwards_untouched :
    vbdev_error_submit_request ⟨0⟩ flushCorruptDisk flushIo 0 =
      some { disk := flushCorruptDisk, ch := ⟨1⟩, completions := [],
             forwarded := some flushIo } ∧
    (flushCorruptDisk.error_vector SPDK_BDEV_IO_TYPE_FLUSH).error_num = 1 ∧
    ¬ affectedAs VBDEV_IO_CORRUPT_DATA flushIo 0 255
        { disk := flushCorruptDisk, ch := ⟨1⟩, completions := [],
          forwarded := some flushIo } := by
  refine ⟨rfl, rfl, ?_⟩
  intro h
  simp only [affectedAs, VBDEV_IO_CORRUPT_DATA, VBDEV_IO_FAILURE, VBDEV_IO_NOMEM,
    VBDEV_IO_PENDING] at h
  exact absurd h.2 (by decide)

end VbdevError
